import Mathlib

/-!
Shallow embedding of the fint_backend repository (JWT auth middlewares,
coupon lifecycle controllers, advertisement analytics), with theorems
checking the natural-language specification against the code.

Conventions of the embedding:
* A JSON Web Token is modelled as a structure holding its claim set
  (an association list of string claim keys to string values), the
  secret it was signed with, and its absolute expiry time in seconds.
  String encoding/decoding of tokens is abstracted away; equality of
  `Token` values models equality of the encoded token strings.
* `process.env` is modelled by the `Env` structure (the fields used by
  the embedded code: ACCESS_TOKEN_SECRET, REFRESH_TOKEN_SECRET and the
  two expiry settings, optional as in the environment).
* The document store is a `List` of records; `findById` is a linear
  lookup on the `_id` field.  `updateMany` is a `map` guarded by the
  filter; a query filter `{f: v}` matches records whose field `f`
  equals `v` (a record whose optional field is `none` never matches
  `some v`).
* A JS `try { ... } catch { throw e' }` block is modelled by running
  the try-body to an `Except` value and replacing every error of the
  body by the error thrown in the catch.
-/

namespace FintBackend

/-- A signed JSON Web Token: claim set, signing secret, absolute expiry
(seconds since epoch).  Models the output of `jwt.sign(claims, secret,
{expiresIn})`. -/
structure Token where
  claims : List (String × String)
  secret : String
  expiresAt : Nat
deriving DecidableEq

/-- Errors raised by `jwt.verify`: signature mismatch / malformed token,
or an expired token. -/
inductive JwtError where
  | invalid
  | expired
deriving DecidableEq

/-- Model of `jwt.verify(token, secret)` at time `now`: fails on a wrong
signing secret, fails on expiry, and otherwise returns the decoded claim
set. -/
def jwtVerify (tok : Token) (secret : String) (now : Nat) :
    Except JwtError (List (String × String)) :=
  if tok.secret ≠ secret then .error .invalid
  else if tok.expiresAt ≤ now then .error .expired
  else .ok tok.claims

/-- The environment variables used by the embedded code
(`process.env.*`).  The expiry settings are optional, as in
`process.env.ACCESS_TOKEN_EXPIRY || '1d'`. -/
structure Env where
  ACCESS_TOKEN_SECRET : String
  REFRESH_TOKEN_SECRET : String
  ACCESS_TOKEN_EXPIRY : Option Nat := none
  REFRESH_TOKEN_EXPIRY : Option Nat := none
deriving DecidableEq

/-- The JS `ApiError(statusCode, message, errors)` value. -/
structure ApiError where
  statusCode : Nat
  message : String
  errors : List String := []
deriving DecidableEq

/-- User record (src/models/user.model.js, `userSchema`); only the fields
read by the embedded operations are carried (`_id`, `email`, and the
stored `refreshToken`, `null`-able hence optional).  The stored refresh
token is a token value (standing for the persisted token string). -/
structure User where
  _id : String
  email : String
  refreshToken : Option Token := none
deriving DecidableEq

/-- Admin record.  admin.model.js is not among the sources; the record
shape is taken from what the admin middleware reads: `_id` and the
stored `refreshToken`. -/
structure Admin where
  _id : String
  refreshToken : Option Token := none
deriving DecidableEq

/-- userSchema.methods.generateAccessToken: signs the claim set
`{id: this._id, email: this.email}` with `ACCESS_TOKEN_SECRET` and
expiry `ACCESS_TOKEN_EXPIRY || '1d'` (86400 s). -/
def User.generateAccessToken (env : Env) (now : Nat) (u : User) : Token :=
  { claims := [("id", u._id), ("email", u.email)],
    secret := env.ACCESS_TOKEN_SECRET,
    expiresAt := now + (env.ACCESS_TOKEN_EXPIRY.getD 86400) }

/-- userSchema.methods.generateRefreshToken: signs the claim set
`{id: this._id}` with `REFRESH_TOKEN_SECRET` and expiry
`REFRESH_TOKEN_EXPIRY || '30d'` (2592000 s). -/
def User.generateRefreshToken (env : Env) (now : Nat) (u : User) : Token :=
  { claims := [("id", u._id)],
    secret := env.REFRESH_TOKEN_SECRET,
    expiresAt := now + (env.REFRESH_TOKEN_EXPIRY.getD 2592000) }

/-- `User.findById(id)`: linear lookup on `_id`; a `findById` on a
missing (`undefined`) id yields no record. -/
def User.findById (db : List User) : Option String → Option User
  | none => none
  | some i => db.find? (fun u => u._id = i)

/-- `Admin.findById(id)`: linear lookup on `_id`; a `findById` on a
missing (`undefined`) id yields no record. -/
def Admin.findById (db : List Admin) : Option String → Option Admin
  | none => none
  | some i => db.find? (fun a => a._id = i)

/-- `.select("-refreshToken")` on a loaded user: the projection excludes
the stored refresh-token field from the returned record. -/
def User.selectNoRefreshToken (u : User) : User :=
  { u with refreshToken := none }

/-- `.select("-refreshToken")` on a loaded admin: the projection excludes
the stored refresh-token field from the returned record. -/
def Admin.selectNoRefreshToken (a : Admin) : Admin :=
  { a with refreshToken := none }

/-- An error arising inside the `try` block of a middleware: either the
error thrown by `jwt.verify`, or an `ApiError` thrown explicitly. -/
def TryError : Type := JwtError ⊕ ApiError

instance : DecidableEq TryError := instDecidableEqSum

/-- Body of the `try` block of `adminverifyJWT`
(src/middlewares/auth.admin.middleware.js, lines 15–30): verify the
bearer token against `ACCESS_TOKEN_SECRET`, load the admin by
`decoded._id` with the refresh-token field excluded, throw
`ApiError(404, "Admin not found")` when absent. -/
def adminverifyJWTtry (env : Env) (db : List Admin) (now : Nat) (tok : Token) :
    Except TryError Admin :=
  match jwtVerify tok env.ACCESS_TOKEN_SECRET now with
  | .error e => .error (.inl e)
  | .ok decoded =>
    match Admin.findById db (decoded.lookup "_id") with
    | none => .error (.inr ⟨404, "Admin not found", []⟩)
    | some admin => .ok admin.selectNoRefreshToken

/-- `adminverifyJWT` (src/middlewares/auth.admin.middleware.js): 401 when
the bearer token is missing; otherwise run the try-body, and let the
`catch` replace every error thrown inside it — the 404 included — by
`ApiError(401, "Invalid or expired access token")`. -/
def adminverifyJWT (env : Env) (db : List Admin) (now : Nat)
    (bearer : Option Token) : Except ApiError Admin :=
  match bearer with
  | none => .error ⟨401, "Access token missing", []⟩
  | some tok =>
    match adminverifyJWTtry env db now tok with
    | .ok a => .ok a
    | .error _ => .error ⟨401, "Invalid or expired access token", []⟩

/-- Body of the `try` block of `userverifyJWT`
(src/middlewares/auth.admin.middleware.js, lines 79–94, the
auth.middleware.js part of the file): same algorithm as the admin
variant, over the user collection, with the same
`ACCESS_TOKEN_SECRET`. -/
def userverifyJWTtry (env : Env) (db : List User) (now : Nat) (tok : Token) :
    Except TryError User :=
  match jwtVerify tok env.ACCESS_TOKEN_SECRET now with
  | .error e => .error (.inl e)
  | .ok decoded =>
    match User.findById db (decoded.lookup "_id") with
    | none => .error (.inr ⟨404, "User not found", []⟩)
    | some user => .ok user.selectNoRefreshToken

/-- `userverifyJWT`: 401 when the bearer token is missing; otherwise the
`catch` replaces every error of the try-body by
`ApiError(401, "Invalid or expired access token")`. -/
def userverifyJWT (env : Env) (db : List User) (now : Nat)
    (bearer : Option Token) : Except ApiError User :=
  match bearer with
  | none => .error ⟨401, "Access token missing", []⟩
  | some tok =>
    match userverifyJWTtry env db now tok with
    | .ok u => .ok u
    | .error _ => .error ⟨401, "Invalid or expired access token", []⟩

/-- Body of the `try` block of the admin `verifyRefreshToken`
(auth.admin.middleware.js, lines 47–58): verify against
`REFRESH_TOKEN_SECRET`, load the admin by `decoded._id`, and throw
`ApiError(403, "Invalid refresh token")` when the admin is absent or the
stored refresh token differs from the presented one. -/
def adminVerifyRefreshTokenTry (env : Env) (db : List Admin) (now : Nat)
    (tok : Token) : Except TryError Admin :=
  match jwtVerify tok env.REFRESH_TOKEN_SECRET now with
  | .error e => .error (.inl e)
  | .ok decoded =>
    match Admin.findById db (decoded.lookup "_id") with
    | none => .error (.inr ⟨403, "Invalid refresh token", []⟩)
    | some admin =>
      if admin.refreshToken ≠ some tok then
        .error (.inr ⟨403, "Invalid refresh token", []⟩)
      else .ok admin

/-- Admin `verifyRefreshToken`: 401 when no refresh token is presented;
otherwise the `catch` replaces every error of the try-body — the 403
included — by `ApiError(401, "Refresh token expired or invalid")`. -/
def adminVerifyRefreshToken (env : Env) (db : List Admin) (now : Nat)
    (presented : Option Token) : Except ApiError Admin :=
  match presented with
  | none => .error ⟨401, "Refresh token missing", []⟩
  | some tok =>
    match adminVerifyRefreshTokenTry env db now tok with
    | .ok a => .ok a
    | .error _ => .error ⟨401, "Refresh token expired or invalid", []⟩

/-- Body of the `try` block of the user `verifyRefreshToken`
(auth.admin.middleware.js, lines 111–122): same algorithm over the user
collection. -/
def userVerifyRefreshTokenTry (env : Env) (db : List User) (now : Nat)
    (tok : Token) : Except TryError User :=
  match jwtVerify tok env.REFRESH_TOKEN_SECRET now with
  | .error e => .error (.inl e)
  | .ok decoded =>
    match User.findById db (decoded.lookup "_id") with
    | none => .error (.inr ⟨403, "Invalid refresh token", []⟩)
    | some user =>
      if user.refreshToken ≠ some tok then
        .error (.inr ⟨403, "Invalid refresh token", []⟩)
      else .ok user

/-- User `verifyRefreshToken`: 401 when no refresh token is presented;
otherwise the `catch` replaces every error of the try-body by
`ApiError(401, "Refresh token expired or invalid")`. -/
def userVerifyRefreshToken (env : Env) (db : List User) (now : Nat)
    (presented : Option Token) : Except ApiError User :=
  match presented with
  | none => .error ⟨401, "Refresh token missing", []⟩
  | some tok =>
    match userVerifyRefreshTokenTry env db now tok with
    | .ok u => .ok u
    | .error _ => .error ⟨401, "Refresh token expired or invalid", []⟩

/-- Coupon record.  coupon.model.js is not among the sources; the field
set is taken from what the coupon controllers read and write
(fintCoupon.controller.js), and the `status := "active"` default of a
newly persisted record is Modelled from the spec: "On success, persists
a new record with status `active`".  `createdByVenture` is the field
queried by `displayVentureExpiredCoupons`; no controller ever writes it,
so it is `none` on every record the embedded operations create. -/
structure Coupon where
  _id : String
  couponTitle : String
  logo : Option String := none
  offerTitle : String
  offerDescription : String
  termsAndConditions : String
  expiryDate : Nat
  offerDetails : Option String := none
  aboutCompany : Option String := none
  claimPercentage : Option Int := none
  createdBy : Option String := none
  createdByVenture : Option String := none
  status : String := "active"
  viewCount : Nat := 0
  createdAt : Nat := 0
deriving DecidableEq

/-- The fields of `req.body` that `couponSchema` inspects (each absent
field is `none`; `expiryDate` is carried as an already-parsed
timestamp, `claimPercentage` as a number). -/
structure CouponBody where
  couponTitle : Option String := none
  offerTitle : Option String := none
  offerDescription : Option String := none
  termsAndConditions : Option String := none
  expiryDate : Option Nat := none
  offerDetails : Option String := none
  aboutCompany : Option String := none
  claimPercentage : Option Int := none
deriving DecidableEq

/-- Check of one `Joi.string().trim().required()` field: a message when
the field is missing, a message when it is empty after trimming (a
string trims to empty exactly when every character is whitespace). -/
def requiredStringCheck (field : String) : Option String → List String
  | none => [field ++ " is required"]
  | some s =>
    if s.data.all Char.isWhitespace then [field ++ " is not allowed to be empty"]
    else []

/-- `couponSchema.validate(formData, {abortEarly: false})`
(fintCoupon.controller.js, lines 225–236): validates every field and
collects all violation messages (non-short-circuiting).  The URI
grammar of `Joi.string().uri()` is taken as the parameter `isUri`;
`logo` also admits `null` and the empty string. -/
def couponSchemaValidate (isUri : String → Bool) (b : CouponBody)
    (logo : Option String) : List String :=
  requiredStringCheck "couponTitle" b.couponTitle
  ++ (match logo with
      | none => []
      | some s => if s = "" || isUri s then [] else ["logo must be a valid uri"])
  ++ requiredStringCheck "offerTitle" b.offerTitle
  ++ requiredStringCheck "offerDescription" b.offerDescription
  ++ requiredStringCheck "termsAndConditions" b.termsAndConditions
  ++ (match b.expiryDate with
      | none => ["expiryDate is required"]
      | some _ => [])
  ++ (match b.claimPercentage with
      | none => []
      | some p =>
        (if p < 0 then ["claimPercentage must be greater than or equal to 0"] else [])
        ++ (if p > 100 then ["claimPercentage must be less than or equal to 100"] else []))

/-- `createCoupon` (fintCoupon.controller.js, lines 258–284): builds
`formData = {...req.body, logo: req.file path, createdBy: ventureId}`,
validates it against `couponSchema` with `abortEarly: false`, throws
`ApiError(400, "Validation error", messages)` on any violation — the
store is left untouched — and otherwise persists a new coupon record
and returns it.  `newId` and `now` stand for the store-assigned
identifier and creation timestamp. -/
def createCoupon (isUri : String → Bool) (ventureId : String)
    (file : Option String) (body : CouponBody) (newId : String) (now : Nat)
    (db : List Coupon) : List Coupon × Except ApiError Coupon :=
  let logoUrl : Option String := file
  let errs := couponSchemaValidate isUri body logoUrl
  if errs = [] then
    let c : Coupon :=
      { _id := newId,
        couponTitle := body.couponTitle.getD "",
        logo := logoUrl,
        offerTitle := body.offerTitle.getD "",
        offerDescription := body.offerDescription.getD "",
        termsAndConditions := body.termsAndConditions.getD "",
        expiryDate := body.expiryDate.getD 0,
        offerDetails := body.offerDetails,
        aboutCompany := body.aboutCompany,
        claimPercentage := body.claimPercentage,
        createdBy := some ventureId,
        createdByVenture := none,
        status := "active",
        viewCount := 0,
        createdAt := now }
    (db ++ [c], .ok c)
  else (db, .error ⟨400, "Validation error", errs⟩)

/-- The fields accepted by `editCouponSchema` (fintCoupon.controller.js,
lines 239–254); `status` is not among them, and `editCouponSchema` does
not allow unknown keys.  `logo` is doubly optional: `some none` models
an explicit `null`. -/
structure EditPatch where
  couponTitle : Option String := none
  couponCode : Option String := none
  discountType : Option String := none
  discountValue : Option Int := none
  expiryDate : Option Nat := none
  logo : Option (Option String) := none
  offerTitle : Option String := none
  offerDescription : Option String := none
  termsAndConditions : Option String := none
  offerDetails : Option String := none
  aboutCompany : Option String := none
deriving DecidableEq

/-- `editCouponSchema.validate(updatedData, {abortEarly: false})`
(fintCoupon.controller.js): every field optional, constraints checked
when present (`couponTitle` min length 3, `couponCode` alphanumeric of
min length 3, `discountValue` at least 0), messages collected. -/
def editCouponSchemaValidate (p : EditPatch) : List String :=
  (match p.couponTitle with
   | none => []
   | some s => if s.length < 3 then ["couponTitle length must be at least 3 characters long"] else [])
  ++ (match p.couponCode with
      | none => []
      | some s =>
        (if s.all Char.isAlphanum then [] else ["couponCode must only contain alpha-numeric characters"])
        ++ (if s.length < 3 then ["couponCode length must be at least 3 characters long"] else []))
  ++ (match p.discountValue with
      | none => []
      | some v => if v < 0 then ["discountValue must be greater than or equal to 0"] else [])

/-- `Coupon.findByIdAndUpdate(id, value)` applied to one record: each
field present in the validated patch is written, every other field —
`status` included, since `editCouponSchema` accepts no `status` key —
is left as stored.  (`couponCode`, `discountType` and `discountValue`
have no counterpart on the embedded coupon record, whose model file
carries none of them; writing them is a no-op here.) -/
def applyEditPatch (p : EditPatch) (c : Coupon) : Coupon :=
  { c with
    couponTitle := p.couponTitle.getD c.couponTitle,
    expiryDate := p.expiryDate.getD c.expiryDate,
    logo := p.logo.getD c.logo,
    offerTitle := p.offerTitle.getD c.offerTitle,
    offerDescription := p.offerDescription.getD c.offerDescription,
    termsAndConditions := p.termsAndConditions.getD c.termsAndConditions,
    offerDetails := match p.offerDetails with
      | none => c.offerDetails
      | some s => some s,
    aboutCompany := match p.aboutCompany with
      | none => c.aboutCompany
      | some s => some s }

/-- `editCoupon` (fintCoupon.controller.js, lines 328–365): load by id
(404 `"Coupon not found"` when absent), put the uploaded file path — or
the stored logo when no file came — into the patch, validate against
`editCouponSchema` (400 `"Validation failed"` with all messages on
violation), then `findByIdAndUpdate` and return the updated record. -/
def editCoupon (db : List Coupon) (id : String) (file : Option String)
    (p : EditPatch) : List Coupon × Except ApiError Coupon :=
  match db.find? (fun c => c._id = id) with
  | none => (db, .error ⟨404, "Coupon not found", []⟩)
  | some existing =>
    let logoUrl : Option String :=
      match file with
      | some path => some path
      | none => existing.logo
    let patched : EditPatch := { p with logo := some logoUrl }
    let errs := editCouponSchemaValidate patched
    if errs = [] then
      (db.map (fun c => if c._id = id then applyEditPatch patched c else c),
       .ok (applyEditPatch patched existing))
    else (db, .error ⟨400, "Validation failed", errs⟩)

/-- One record under the auto-expiry sweep
`Coupon.updateMany({expiryDate: {$lte: now}, status: "active"},
{$set: {status: "expired"}})`: records matching the filter get status
`expired`, all others are untouched. -/
def autoExpireOne (now : Nat) (c : Coupon) : Coupon :=
  if c.expiryDate ≤ now ∧ c.status = "active" then { c with status := "expired" }
  else c

/-- The auto-expiry sweep over the whole coupon store
(fintCoupon.controller.js, lines 370–374). -/
def autoExpireSweep (now : Nat) (db : List Coupon) : List Coupon :=
  db.map (autoExpireOne now)

/-- The per-record response shape shared by the coupon listing
operations (id, title, logo, offerTitle, offerDescription, expiryDate,
status, claimPercentage, viewCount, createdAt). -/
structure CouponView where
  id : String
  title : String
  logo : Option String
  offerTitle : String
  offerDescription : String
  expiryDate : Nat
  status : String
  claimPercentage : Option Int
  viewCount : Nat
  createdAt : Nat
deriving DecidableEq

/-- The field reshaping applied by the listing operations. -/
def formatCoupon (c : Coupon) : CouponView :=
  { id := c._id,
    title := c.couponTitle,
    logo := c.logo,
    offerTitle := c.offerTitle,
    offerDescription := c.offerDescription,
    expiryDate := c.expiryDate,
    status := c.status,
    claimPercentage := c.claimPercentage,
    viewCount := c.viewCount,
    createdAt := c.createdAt }

/-- `.sort({createdAt: -1})`: newest first. -/
def sortByCreatedAtDesc (l : List Coupon) : List Coupon :=
  l.insertionSort (fun a b => b.createdAt ≤ a.createdAt)

/-- `.sort({expiryDate: -1})`: latest expiry first. -/
def sortByExpiryDateDesc (l : List Coupon) : List Coupon :=
  l.insertionSort (fun a b => b.expiryDate ≤ a.expiryDate)

/-- `displayCoupons` (fintCoupon.controller.js, lines 367–419), the
unfiltered "all" listing: runs the auto-expiry sweep, then returns the
swept store newest-first, reshaped.  The result pairs the store after
the sweep with the response list (the per-status aggregation summary of
the response envelope is not carried). -/
def displayCoupons (now : Nat) (db : List Coupon) :
    List Coupon × List CouponView :=
  let db2 := autoExpireSweep now db
  (db2, (sortByCreatedAtDesc db2).map formatCoupon)

/-- `displayActiveCoupons` (fintCoupon.controller.js, lines 468–493):
finds the records with status `active`, newest first, reshaped.  It
performs no write on the store — in particular no auto-expiry sweep. -/
def displayActiveCoupons (db : List Coupon) : List CouponView :=
  (sortByCreatedAtDesc (db.filter (fun c => c.status = "active"))).map formatCoupon

/-- `displayExpiredCoupons` (fintCoupon.controller.js, lines 495–520):
finds the records with status `expired`, newest first, reshaped; no
write on the store. -/
def displayExpiredCoupons (db : List Coupon) : List CouponView :=
  (sortByCreatedAtDesc (db.filter (fun c => c.status = "expired"))).map formatCoupon

/-- `displayVentureExpiredCoupons` (fintCoupon.controller.js, lines
448–466): 400 on a malformed venture id (the well-formedness test
`mongoose.Types.ObjectId.isValid` is the parameter `isValidId`), then
finds the records with `createdByVenture` equal to the id and status
`expired`, latest expiry first. -/
def displayVentureExpiredCoupons (isValidId : String → Bool) (id : String)
    (db : List Coupon) : Except ApiError (List Coupon) :=
  if isValidId id then
    .ok (sortByExpiryDateDesc
      (db.filter (fun c => c.createdByVenture = some id ∧ c.status = "expired")))
  else .error ⟨400, "Invalid Venture ID", []⟩

/-- A point in time split into its UTC calendar components, as
`$dateToString` (whose default timezone is UTC) reads it. -/
structure UtcInstant where
  year : Nat
  month : Nat
  day : Nat
  hour : Nat := 0
  minute : Nat := 0
  second : Nat := 0
deriving DecidableEq

/-- Left-pad to two digits. -/
def pad2 (n : Nat) : String :=
  if n < 10 then "0" ++ toString n else toString n

/-- Left-pad to four digits. -/
def pad4 (n : Nat) : String :=
  if n < 10 then "000" ++ toString n
  else if n < 100 then "00" ++ toString n
  else if n < 1000 then "0" ++ toString n
  else toString n

/-- `$dateToString: {format: "%Y-%m-%d", date: ...}` — the UTC
calendar-day string of an instant. -/
def dateToStringYMD (t : UtcInstant) : String :=
  pad4 t.year ++ "-" ++ pad2 t.month ++ "-" ++ pad2 t.day

/-- One entry of an advertisement's viewer log:
`{userId, viewedAt}`. -/
structure ViewerEntry where
  userId : String
  viewedAt : UtcInstant
deriving DecidableEq

/-- Advertisement record.  advertisement.model.js is not among the
sources; only the fields the embedded `analytics` aggregation reads are
carried (`_id` and the `viewers` log). -/
structure Advertisement where
  _id : String
  viewers : List ViewerEntry
deriving DecidableEq

/-- Lexicographic order on character lists by code point — the byte
order MongoDB's `$sort` uses on the (ASCII) day strings. -/
def lexLe : List Char → List Char → Bool
  | [], _ => true
  | _ :: _, [] => false
  | a :: as, b :: bs =>
    if a.toNat < b.toNat then true
    else if b.toNat < a.toNat then false
    else lexLe as bs

/-- Lexicographic string comparison (the order `$sort` applies to the
day strings). -/
def strLeB (a b : String) : Bool := lexLe a.data b.data

/-- One row of the `analytics` aggregation output:
`{date, totalViews, uniqueUsersCount}`. -/
structure DayStat where
  date : String
  totalViews : Nat
  uniqueUsersCount : Nat
deriving DecidableEq

/-- `analytics` (advertisement controller, lines 141–172): `$unwind` the
viewer logs of all records, `$group` by the UTC day string of each
view's `viewedAt` — counting the views (`$sum: 1`) and collecting the
set of user ids (`$addToSet`), whose `$size` is the distinct-user
count — then `$sort` by `date` descending. -/
def analytics (ads : List Advertisement) : List DayStat :=
  let views := (ads.map Advertisement.viewers).flatten
  let days := (views.map (fun v => dateToStringYMD v.viewedAt)).dedup
  let stats := days.map (fun d =>
    let dayViews := views.filter (fun v => dateToStringYMD v.viewedAt = d)
    { date := d,
      totalViews := dayViews.length,
      uniqueUsersCount := (dayViews.map ViewerEntry.userId).dedup.length : DayStat })
  stats.insertionSort (fun a b => strLeB b.date a.date = true)

/-- The lexicographic comparison is total. -/
theorem lexLe_total : ∀ a b : List Char, lexLe a b = true ∨ lexLe b a = true := by
  intro a
  induction a with
  | nil => intro b; left; rfl
  | cons x xs ih =>
    intro b
    cases b with
    | nil => right; rfl
    | cons y ys =>
      by_cases hxy : x.toNat < y.toNat
      · left; simp [lexLe, hxy]
      · by_cases hyx : y.toNat < x.toNat
        · right; simp [lexLe, hyx]
        · rcases ih ys with h | h
          · left; simp [lexLe, hxy, hyx, h]
          · right; simp [lexLe, hxy, hyx, h]

/-- The lexicographic comparison is transitive. -/
theorem lexLe_trans : ∀ a b c : List Char,
    lexLe a b = true → lexLe b c = true → lexLe a c = true := by
  intro a
  induction a with
  | nil => intro b c _ _; rfl
  | cons x xs ih =>
    intro b c hab hbc
    cases b with
    | nil => simp [lexLe] at hab
    | cons y ys =>
      cases c with
      | nil => simp [lexLe] at hbc
      | cons z zs =>
        simp only [lexLe] at hab hbc ⊢
        rcases Nat.lt_trichotomy x.toNat y.toNat with hxy | hxy | hxy
        · rcases Nat.lt_trichotomy y.toNat z.toNat with hyz | hyz | hyz
          · simp [show x.toNat < z.toNat by omega]
          · simp [show x.toNat < z.toNat by omega]
          · simp [show ¬ y.toNat < z.toNat by omega, hyz] at hbc
        · rcases Nat.lt_trichotomy y.toNat z.toNat with hyz | hyz | hyz
          · simp [show x.toNat < z.toNat by omega]
          · have h1 : ¬ x.toNat < z.toNat := by omega
            have h2 : ¬ z.toNat < x.toNat := by omega
            simp only [if_neg h1, if_neg h2]
            have hab' : lexLe xs ys = true := by
              simpa [show ¬ x.toNat < y.toNat by omega,
                show ¬ y.toNat < x.toNat by omega] using hab
            have hbc' : lexLe ys zs = true := by
              simpa [show ¬ y.toNat < z.toNat by omega,
                show ¬ z.toNat < y.toNat by omega] using hbc
            exact ih ys zs hab' hbc'
          · simp [show ¬ y.toNat < z.toNat by omega, hyz] at hbc
        · simp [show ¬ x.toNat < y.toNat by omega, hxy] at hab

/-- A record touched by the auto-expiry sweep whose expiry has passed is
not left with status `active`. -/
theorem aux_autoExpireOne_not_active (now : Nat) (c : Coupon)
    (h : (autoExpireOne now c).expiryDate ≤ now) :
    (autoExpireOne now c).status ≠ "active" := by
  by_cases hc : c.expiryDate ≤ now ∧ c.status = "active"
  · simp [autoExpireOne, hc]
  · simp only [autoExpireOne, if_neg hc] at h ⊢
    intro hstat
    exact hc ⟨h, hstat⟩

/-- C1, counterexample.  The claim says access-token verification uses a
distinct signing secret per principal kind, so that a token issued for
one kind fails verification in another kind's middleware.  In the code
both `adminverifyJWT` and `userverifyJWT` verify with the same
`ACCESS_TOKEN_SECRET`, which is also the secret the user model's
`generateAccessToken` signs with: on a concrete environment, a token
issued for a user passes the signature/expiry verification step of the
admin middleware (`jwtVerify` succeeds and returns the claims), and the
admin middleware's try-body proceeds past verification all the way to
the principal lookup (failing there with the 404, not with a JWT
verification error). -/
theorem C1_counterexample :
    (adminverifyJWTtry ⟨"shared-secret", "refresh-secret", none, none⟩ [] 100
        (User.generateAccessToken ⟨"shared-secret", "refresh-secret", none, none⟩ 0
          ⟨"u1", "u1@example.com", none⟩)
        = .error (.inr ⟨404, "Admin not found", []⟩))
    ∧ jwtVerify
        (User.generateAccessToken ⟨"shared-secret", "refresh-secret", none, none⟩ 0
          ⟨"u1", "u1@example.com", none⟩)
        (Env.ACCESS_TOKEN_SECRET ⟨"shared-secret", "refresh-secret", none, none⟩) 100
        = .ok [("id", "u1"), ("email", "u1@example.com")] := ⟨rfl, rfl⟩

/-- C1, amended.  Both verification middlewares use one and the same
`ACCESS_TOKEN_SECRET`: the try-body of the admin middleware fails at
token verification exactly when the user middleware's does (over any
stores), and every unexpired access token issued by the user model
passes the signature/expiry verification performed with the secret both
middlewares use.  Role separation, if any, happens only at the
subsequent principal lookup. -/
theorem C1_amended :
    (∀ (env : Env) (adb : List Admin) (udb : List User) (now : Nat) (tok : Token)
        (e : JwtError),
        adminverifyJWTtry env adb now tok = .error (.inl e)
          ↔ userverifyJWTtry env udb now tok = .error (.inl e))
    ∧ (∀ (env : Env) (u : User) (issuedAt now : Nat),
        now < issuedAt + env.ACCESS_TOKEN_EXPIRY.getD 86400 →
        jwtVerify (u.generateAccessToken env issuedAt) env.ACCESS_TOKEN_SECRET now
          = .ok [("id", u._id), ("email", u.email)]) := by
  constructor
  · intro env adb udb now tok e
    unfold adminverifyJWTtry userverifyJWTtry
    cases h : jwtVerify tok env.ACCESS_TOKEN_SECRET now with
    | error e' => simp
    | ok decoded =>
      cases hA : Admin.findById adb (decoded.lookup "_id") <;>
        cases hU : User.findById udb (decoded.lookup "_id") <;> simp [hA, hU]
  · intro env u issuedAt now h
    unfold jwtVerify User.generateAccessToken
    rw [if_neg (by simp), if_neg (by simpa using not_le.mpr h)]

/-- C1, witness for the amended theorem: the second conjunct applied to
a concrete environment, user and time, its expiry hypothesis discharged
by computation. -/
theorem C1_witness :
    ((100 : Nat) < 0 + ((⟨"s", "r", none, none⟩ : Env).ACCESS_TOKEN_EXPIRY.getD 86400))
    ∧ jwtVerify
        (User.generateAccessToken ⟨"s", "r", none, none⟩ 0 ⟨"u1", "e@x", none⟩)
        (Env.ACCESS_TOKEN_SECRET ⟨"s", "r", none, none⟩) 100
        = .ok [("id", "u1"), ("email", "e@x")] :=
  ⟨by decide, C1_amended.2 ⟨"s", "r", none, none⟩ ⟨"u1", "e@x", none⟩ 0 100 (by decide)⟩

/-- C2.  Every access token issued by the user model's
`generateAccessToken` stores the principal identifier under claim key
`id`; the decoded payload has no `_id` key, so the lookup key
`decoded._id` used by both verification middlewares is the missing
(`undefined`) value, and the `findById` the middlewares perform on it
finds no record in any store. -/
theorem C2_id_claim_key (env : Env) (u : User) (now : Nat) :
    ((u.generateAccessToken env now).claims.lookup "id" = some u._id)
    ∧ ((u.generateAccessToken env now).claims.lookup "_id" = none)
    ∧ (∀ udb : List User,
        User.findById udb ((u.generateAccessToken env now).claims.lookup "_id") = none)
    ∧ (∀ adb : List Admin,
        Admin.findById adb ((u.generateAccessToken env now).claims.lookup "_id") = none) := by
  refine ⟨?_, ?_, ?_, ?_⟩ <;>
    simp [User.generateAccessToken, List.lookup, User.findById, Admin.findById]

/-- C3, counterexample.  The claim says every status-filtered listing
(the active-coupons view included) runs the auto-expiry sweep first, so
an active-filtered listing never returns a coupon whose expiry has
passed.  In the code `displayActiveCoupons` performs no sweep: at time
20, a stored coupon with status `active` and `expiryDate` 10 is
returned by the active listing unchanged, still as `active` — even
though the sweep, had it run, would have expired it (third
conjunct). -/
theorem C3_counterexample :
    displayActiveCoupons
      [{ _id := "c1", couponTitle := "T", offerTitle := "O",
         offerDescription := "D", termsAndConditions := "TC",
         expiryDate := 10, status := "active", createdAt := 1 : Coupon }]
      = [{ id := "c1", title := "T", logo := none, offerTitle := "O",
           offerDescription := "D", expiryDate := 10, status := "active",
           claimPercentage := none, viewCount := 0, createdAt := 1 : CouponView }]
    ∧ (10 : Nat) ≤ 20
    ∧ autoExpireSweep 20
        [{ _id := "c1", couponTitle := "T", offerTitle := "O",
           offerDescription := "D", termsAndConditions := "TC",
           expiryDate := 10, status := "active", createdAt := 1 : Coupon }]
      = [{ _id := "c1", couponTitle := "T", offerTitle := "O",
           offerDescription := "D", termsAndConditions := "TC",
           expiryDate := 10, status := "expired", createdAt := 1 : Coupon }] :=
  ⟨by decide, by decide, by decide⟩

/-- C3, amended.  Only the unfiltered `displayCoupons` listing performs
the auto-expiry sweep before returning: after it, no coupon in the
store whose expiry has passed is left `active`.  The status-filtered
`displayActiveCoupons` listing performs no sweep and filters on the
stored status only, so every view it returns carries status `active`
regardless of expiry. -/
theorem C3_amended :
    (∀ (now : Nat) (db : List Coupon) (c : Coupon),
        c ∈ (displayCoupons now db).1 → c.expiryDate ≤ now → c.status ≠ "active")
    ∧ (∀ (db : List Coupon) (v : CouponView),
        v ∈ displayActiveCoupons db → v.status = "active") := by
  constructor
  · intro now db c hc hexp
    simp only [displayCoupons, autoExpireSweep, List.mem_map] at hc
    obtain ⟨c0, _, rfl⟩ := hc
    exact aux_autoExpireOne_not_active now c0 hexp
  · intro db v hv
    simp only [displayActiveCoupons, sortByCreatedAtDesc, List.mem_map,
      List.mem_insertionSort, List.mem_filter] at hv
    obtain ⟨c, ⟨_, hstat⟩, rfl⟩ := hv
    simpa [formatCoupon] using hstat

/-- C3, witness: the amended theorem's first conjunct applied to the
store after the all-coupons listing at time 20 — the formerly active,
past-expiry coupon is found in the swept store as `expired`. -/
theorem C3_witness :
    (({ _id := "c1", couponTitle := "T", offerTitle := "O",
        offerDescription := "D", termsAndConditions := "TC",
        expiryDate := 10, status := "expired", createdAt := 1 : Coupon }
          ∈ (displayCoupons 20
              [{ _id := "c1", couponTitle := "T", offerTitle := "O",
                 offerDescription := "D", termsAndConditions := "TC",
                 expiryDate := 10, status := "active", createdAt := 1 : Coupon }]).1)
      ∧ ({ _id := "c1", couponTitle := "T", offerTitle := "O",
           offerDescription := "D", termsAndConditions := "TC",
           expiryDate := 10, status := "expired", createdAt := 1 : Coupon }).expiryDate ≤ 20)
    ∧ ({ _id := "c1", couponTitle := "T", offerTitle := "O",
         offerDescription := "D", termsAndConditions := "TC",
         expiryDate := 10, status := "expired", createdAt := 1 : Coupon }).status
        ≠ "active" :=
  ⟨⟨by decide, by decide⟩,
   C3_amended.1 20
     [{ _id := "c1", couponTitle := "T", offerTitle := "O",
        offerDescription := "D", termsAndConditions := "TC",
        expiryDate := 10, status := "active", createdAt := 1 : Coupon }]
     { _id := "c1", couponTitle := "T", offerTitle := "O",
       offerDescription := "D", termsAndConditions := "TC",
       expiryDate := 10, status := "expired", createdAt := 1 : Coupon }
     (by decide) (by decide)⟩

/-- C4, code evaluation at the failing input.  A presented refresh token
with a valid signature under `REFRESH_TOKEN_SECRET` and unexpired
(third conjunct), differing from the principal's stored refresh token
(fourth conjunct), makes the refresh middleware fail — but with
`ApiError(401, "Refresh token expired or invalid")`, not with the 403
the claim states: the try-body does raise the 403 (second conjunct),
and the catch-all rewraps it as the generic 401 (first conjunct; the
last conjunct shows the user-variant middleware behaves the same). -/
theorem C4_code_evaluation :
    (adminVerifyRefreshToken ⟨"as", "rs", none, none⟩
        [⟨"a1", some ⟨[("id", "a1")], "rs", 1000⟩⟩] 0
        (some ⟨[("_id", "a1")], "rs", 1000⟩)
      = .error ⟨401, "Refresh token expired or invalid", []⟩)
    ∧ (adminVerifyRefreshTokenTry ⟨"as", "rs", none, none⟩
        [⟨"a1", some ⟨[("id", "a1")], "rs", 1000⟩⟩] 0
        ⟨[("_id", "a1")], "rs", 1000⟩
      = .error (.inr ⟨403, "Invalid refresh token", []⟩))
    ∧ (jwtVerify ⟨[("_id", "a1")], "rs", 1000⟩ "rs" 0 = .ok [("_id", "a1")])
    ∧ ((⟨"a1", some ⟨[("id", "a1")], "rs", 1000⟩⟩ : Admin).refreshToken
        ≠ some ⟨[("_id", "a1")], "rs", 1000⟩)
    ∧ (userVerifyRefreshToken ⟨"as", "rs", none, none⟩
        [⟨"u1", "u1@example.com", some ⟨[("id", "u1")], "rs", 1000⟩⟩] 0
        (some ⟨[("_id", "u1")], "rs", 1000⟩)
      = .error ⟨401, "Refresh token expired or invalid", []⟩) :=
  ⟨rfl, rfl, rfl, by decide, rfl⟩

/-- C5, code evaluation at the failing input.  A bearer access token
that verifies successfully (third conjunct) but matches no stored
principal makes the middleware fail — with
`ApiError(401, "Invalid or expired access token")`, not with the 404
`PrincipalNotFoundError` the claim states: the try-body does raise the
404 (second conjunct) and the catch-all rewraps it (first conjunct; the
fourth shows the user middleware behaves the same).  The projection
part of the claim holds: the principal loaded by either middleware has
the stored refresh-token field excluded (last two conjuncts). -/
theorem C5_code_evaluation :
    (adminverifyJWT ⟨"as", "rs", none, none⟩ [] 0 (some ⟨[("_id", "a1")], "as", 1000⟩)
      = .error ⟨401, "Invalid or expired access token", []⟩)
    ∧ (adminverifyJWTtry ⟨"as", "rs", none, none⟩ [] 0 ⟨[("_id", "a1")], "as", 1000⟩
      = .error (.inr ⟨404, "Admin not found", []⟩))
    ∧ (jwtVerify ⟨[("_id", "a1")], "as", 1000⟩ "as" 0 = .ok [("_id", "a1")])
    ∧ (userverifyJWT ⟨"as", "rs", none, none⟩ [] 0 (some ⟨[("_id", "u1")], "as", 1000⟩)
      = .error ⟨401, "Invalid or expired access token", []⟩)
    ∧ (∀ a : Admin, a.selectNoRefreshToken.refreshToken = none)
    ∧ (∀ u : User, u.selectNoRefreshToken.refreshToken = none) :=
  ⟨rfl, rfl, rfl, rfl, fun _ => rfl, fun _ => rfl⟩

/-- C6.  `deleted` and `rejected` are terminal: the auto-expiry sweep
(which matches only `active` records) leaves such a coupon's status
unchanged, the patch application of the edit operation (whose accepted
`editCouponSchema` fields do not include `status`) leaves every
coupon's status unchanged, and the full edit operation preserves the
status of every record in the store. -/
theorem C6_terminal (now : Nat) (c : Coupon) (p : EditPatch)
    (h : c.status = "deleted" ∨ c.status = "rejected") :
    (autoExpireOne now c).status = c.status
    ∧ (applyEditPatch p c).status = c.status
    ∧ (∀ (db : List Coupon) (id : String) (file : Option String),
        ((editCoupon db id file p).1).map Coupon.status = db.map Coupon.status) := by
  refine ⟨?_, rfl, ?_⟩
  · unfold autoExpireOne
    rw [if_neg]
    rintro ⟨-, hstat⟩
    rcases h with h | h <;> rw [h] at hstat <;> simp at hstat
  · intro db id file
    unfold editCoupon
    cases hf : db.find? (fun c => c._id = id) with
    | none => rfl
    | some existing =>
      dsimp only
      split
      · rw [List.map_map]
        apply List.map_congr_left
        intro a _
        dsimp only [Function.comp]
        split <;> rfl
      · rfl

/-- C6, witness: the theorem applied to a concrete deleted coupon and
an empty patch. -/
theorem C6_witness :
    (({ _id := "c9", couponTitle := "T", offerTitle := "O",
        offerDescription := "D", termsAndConditions := "TC",
        expiryDate := 10, status := "deleted", createdAt := 1 : Coupon }).status = "deleted"
      ∨ ({ _id := "c9", couponTitle := "T", offerTitle := "O",
           offerDescription := "D", termsAndConditions := "TC",
           expiryDate := 10, status := "deleted", createdAt := 1 : Coupon }).status = "rejected")
    ∧ ((autoExpireOne 99
          { _id := "c9", couponTitle := "T", offerTitle := "O",
            offerDescription := "D", termsAndConditions := "TC",
            expiryDate := 10, status := "deleted", createdAt := 1 }).status
        = ({ _id := "c9", couponTitle := "T", offerTitle := "O",
             offerDescription := "D", termsAndConditions := "TC",
             expiryDate := 10, status := "deleted", createdAt := 1 : Coupon }).status
      ∧ (applyEditPatch {}
          { _id := "c9", couponTitle := "T", offerTitle := "O",
            offerDescription := "D", termsAndConditions := "TC",
            expiryDate := 10, status := "deleted", createdAt := 1 }).status
        = ({ _id := "c9", couponTitle := "T", offerTitle := "O",
             offerDescription := "D", termsAndConditions := "TC",
             expiryDate := 10, status := "deleted", createdAt := 1 : Coupon }).status
      ∧ (∀ (db : List Coupon) (id : String) (file : Option String),
          ((editCoupon db id file {}).1).map Coupon.status = db.map Coupon.status)) :=
  ⟨Or.inl rfl,
   C6_terminal 99
     { _id := "c9", couponTitle := "T", offerTitle := "O",
       offerDescription := "D", termsAndConditions := "TC",
       expiryDate := 10, status := "deleted", createdAt := 1 } {} (Or.inl rfl)⟩

/-- C7.  A create input violating several field constraints at once —
here all five required fields missing — fails with the 400
`"Validation error"` whose error list carries one message per violated
field (all five, not just the first), and the store is unchanged. -/
theorem C7_collects_all (isUri : String → Bool) (vid : String) (newId : String)
    (now : Nat) (db : List Coupon) (b : CouponBody)
    (h1 : b.couponTitle = none) (h2 : b.offerTitle = none)
    (h3 : b.offerDescription = none) (h4 : b.termsAndConditions = none)
    (h5 : b.expiryDate = none) (h6 : b.claimPercentage = none) :
    (createCoupon isUri vid none b newId now db).2
      = .error ⟨400, "Validation error",
          ["couponTitle is required", "offerTitle is required",
           "offerDescription is required", "termsAndConditions is required",
           "expiryDate is required"]⟩
    ∧ (createCoupon isUri vid none b newId now db).1 = db := by
  refine ⟨?_, ?_⟩ <;>
    simp [createCoupon, couponSchemaValidate, requiredStringCheck,
      h1, h2, h3, h4, h5, h6]

/-- C7, witness: the theorem applied to the all-fields-missing body. -/
theorem C7_witness :
    ((({} : CouponBody).couponTitle = none) ∧ (({} : CouponBody).offerTitle = none)
      ∧ (({} : CouponBody).offerDescription = none)
      ∧ (({} : CouponBody).termsAndConditions = none)
      ∧ (({} : CouponBody).expiryDate = none)
      ∧ (({} : CouponBody).claimPercentage = none))
    ∧ ((createCoupon (fun _ => true) "v1" none {} "id1" 0 []).2
        = .error ⟨400, "Validation error",
            ["couponTitle is required", "offerTitle is required",
             "offerDescription is required", "termsAndConditions is required",
             "expiryDate is required"]⟩
      ∧ (createCoupon (fun _ => true) "v1" none {} "id1" 0 []).1 = []) :=
  ⟨⟨rfl, rfl, rfl, rfl, rfl, rfl⟩,
   C7_collects_all (fun _ => true) "v1" "id1" 0 [] {} rfl rfl rfl rfl rfl rfl⟩

/-- C8.  A create input whose claim-percentage lies outside [0, 100]
fails with the 400 `"Validation error"` (with a non-empty violation
list) and persists nothing: the store returned by the failed call is
the one passed in. -/
theorem C8_out_of_range (isUri : String → Bool) (vid : String)
    (file : Option String) (b : CouponBody) (newId : String) (now : Nat)
    (db : List Coupon) (p : Int)
    (hp : b.claimPercentage = some p) (hout : p < 0 ∨ 100 < p) :
    (createCoupon isUri vid file b newId now db).1 = db
    ∧ ∃ msgs, msgs ≠ []
        ∧ (createCoupon isUri vid file b newId now db).2
            = .error ⟨400, "Validation error", msgs⟩ := by
  have herr : couponSchemaValidate isUri b file ≠ [] := by
    rw [← List.length_pos_iff_ne_nil]
    unfold couponSchemaValidate
    rcases hout with h | h
    · simp [hp, h, List.length_append, show ¬ (100 : Int) < p by omega]
    · simp [hp, h, List.length_append, show ¬ p < (0 : Int) by omega]
  refine ⟨?_, ⟨couponSchemaValidate isUri b file, herr, ?_⟩⟩ <;>
    simp [createCoupon, herr]

/-- C8, witness: the theorem applied to a body carrying claim
percentage 150. -/
theorem C8_witness :
    ((({ claimPercentage := some 150 } : CouponBody).claimPercentage = some 150)
      ∧ ((150 : Int) < 0 ∨ (100 : Int) < 150))
    ∧ ((createCoupon (fun _ => true) "v1" none { claimPercentage := some 150 }
          "id1" 0 []).1 = []
      ∧ ∃ msgs, msgs ≠ []
          ∧ (createCoupon (fun _ => true) "v1" none { claimPercentage := some 150 }
              "id1" 0 []).2 = .error ⟨400, "Validation error", msgs⟩) :=
  ⟨⟨rfl, Or.inr (by decide)⟩,
   C8_out_of_range (fun _ => true) "v1" none { claimPercentage := some 150 }
     "id1" 0 [] 150 rfl (Or.inr (by decide))⟩

/-- C9.  `analytics` flattens the viewer logs, groups by the UTC
calendar-day string of each view, and returns per day the total view
count and the distinct-user count, sorted by date descending: the
output is always sorted descending under the string order, and on the
viewer log [{userA, day1}, {userB, day1}, {userA, day2}] the result is
[{day2, 1, 1}, {day1, 2, 2}]. -/
theorem C9_analytics_day_grouping :
    (∀ ads : List Advertisement,
        (analytics ads).Sorted (fun a b => strLeB b.date a.date = true))
    ∧ analytics [⟨"ad1", [⟨"userA", ⟨2024, 5, 1, 0, 0, 0⟩⟩,
                          ⟨"userB", ⟨2024, 5, 1, 0, 0, 0⟩⟩,
                          ⟨"userA", ⟨2024, 5, 2, 0, 0, 0⟩⟩]⟩]
        = [⟨"2024-05-02", 1, 1⟩, ⟨"2024-05-01", 2, 2⟩] := by
  constructor
  · intro ads
    haveI : IsTotal DayStat (fun a b => strLeB b.date a.date = true) :=
      ⟨fun a b => lexLe_total b.date.data a.date.data⟩
    haveI : IsTrans DayStat (fun a b => strLeB b.date a.date = true) :=
      ⟨fun _ _ _ hab hbc => lexLe_trans _ _ _ hbc hab⟩
    exact List.sorted_insertionSort _ _
  · decide

/-- C10.  `createCoupon` stores the creator under `createdBy` and never
writes `createdByVenture`, so every coupon it returns carries no
`createdByVenture` value; the venture expired-coupons listing filters
on `createdByVenture = id`, hence such a coupon is never in any result
the listing returns, whatever the store and venture id. -/
theorem C10_create_vs_venture_filter
    (isUri : String → Bool) (isValidId : String → Bool) (vid : String)
    (file : Option String) (b : CouponBody) (newId : String) (now : Nat)
    (db db2 : List Coupon) (c : Coupon) (id : String) (l : List Coupon)
    (hok : (createCoupon isUri vid file b newId now db).2 = .ok c)
    (hl : displayVentureExpiredCoupons isValidId id db2 = .ok l) :
    c.createdByVenture = none ∧ c ∉ l := by
  have hcv : c.createdByVenture = none := by
    by_cases herr : couponSchemaValidate isUri b file = []
    · simp only [createCoupon, herr, if_pos] at hok
      simp only [Except.ok.injEq] at hok
      rw [← hok]
    · simp [createCoupon, herr] at hok
  refine ⟨hcv, ?_⟩
  intro hmem
  unfold displayVentureExpiredCoupons at hl
  split at hl
  · simp only [Except.ok.injEq] at hl
    rw [← hl] at hmem
    simp only [sortByExpiryDateDesc, List.mem_insertionSort, List.mem_filter,
      decide_eq_true_eq] at hmem
    rw [hcv] at hmem
    simp at hmem
  · simp at hl

/-- C10, witness: a concrete successful create, and the venture
expired-coupons listing over the post-create store — the created coupon
is not in the result. -/
theorem C10_witness :
    ((createCoupon (fun _ => true) "v1" none
        { couponTitle := some "T", offerTitle := some "O",
          offerDescription := some "D", termsAndConditions := some "TC",
          expiryDate := some 10 } "id1" 0 []).2
      = .ok { _id := "id1", couponTitle := "T", logo := none,
              offerTitle := "O", offerDescription := "D",
              termsAndConditions := "TC", expiryDate := 10,
              offerDetails := none, aboutCompany := none,
              claimPercentage := none, createdBy := some "v1",
              createdByVenture := none, status := "active",
              viewCount := 0, createdAt := 0 }
    ∧ displayVentureExpiredCoupons (fun _ => true) "v1"
        ((createCoupon (fun _ => true) "v1" none
          { couponTitle := some "T", offerTitle := some "O",
            offerDescription := some "D", termsAndConditions := some "TC",
            expiryDate := some 10 } "id1" 0 []).1) = .ok [])
    ∧ (({ _id := "id1", couponTitle := "T", logo := none,
          offerTitle := "O", offerDescription := "D",
          termsAndConditions := "TC", expiryDate := 10,
          offerDetails := none, aboutCompany := none,
          claimPercentage := none, createdBy := some "v1",
          createdByVenture := none, status := "active",
          viewCount := 0, createdAt := 0 : Coupon }).createdByVenture = none
      ∧ { _id := "id1", couponTitle := "T", logo := none,
          offerTitle := "O", offerDescription := "D",
          termsAndConditions := "TC", expiryDate := 10,
          offerDetails := none, aboutCompany := none,
          claimPercentage := none, createdBy := some "v1",
          createdByVenture := none, status := "active",
          viewCount := 0, createdAt := 0 : Coupon } ∉ ([] : List Coupon)) :=
  ⟨⟨rfl, rfl⟩,
   C10_create_vs_venture_filter (fun _ => true) (fun _ => true) "v1" none
     { couponTitle := some "T", offerTitle := some "O",
       offerDescription := some "D", termsAndConditions := some "TC",
       expiryDate := some 10 } "id1" 0 []
     ((createCoupon (fun _ => true) "v1" none
       { couponTitle := some "T", offerTitle := some "O",
         offerDescription := some "D", termsAndConditions := some "TC",
         expiryDate := some 10 } "id1" 0 []).1)
     { _id := "id1", couponTitle := "T", logo := none,
       offerTitle := "O", offerDescription := "D",
       termsAndConditions := "TC", expiryDate := 10,
       offerDetails := none, aboutCompany := none,
       claimPercentage := none, createdBy := some "v1",
       createdByVenture := none, status := "active",
       viewCount := 0, createdAt := 0 } "v1" []
     rfl rfl⟩

end FintBackend
